import Mathlib

/-!
Verification development for the SmartAudit agent repository.

Shallow embedding of the pipeline coordinator (`src/agent/smartAuditAgent.ts`,
`src/server.ts`), the findings normalizer/scorer (`src/actions/runStaticAnalysis.ts`)
and the notification sink (`src/telegram/telegramBot.ts`).

External collaborators (git clone, the Slither/Solhint processes, the testnet,
the fix generator, the GitHub API, the Telegram API) are modelled by their
observable outcomes, supplied as explicit inputs; the coordinator and
normalizer logic itself is translated statement by statement from the source.
-/

namespace SmartAudit

/-- Severity enum of `Finding` (runStaticAnalysis.ts:21). -/
inductive Severity where
  | critical
  | high
  | medium
  | low
  | info
deriving DecidableEq

/-- Confidence enum of `Finding` (runStaticAnalysis.ts:22). -/
inductive Confidence where
  | high
  | medium
  | low
deriving DecidableEq

/-- Position of a severity in the total order info < low < medium < high < critical
declared by the data model (spec section 3); used only to state monotonicity. -/
def Severity.rank : Severity → Nat
  | .info => 0
  | .low => 1
  | .medium => 2
  | .high => 3
  | .critical => 4

/-- Position of a confidence in the total order low < medium < high. -/
def Confidence.rank : Confidence → Nat
  | .low => 0
  | .medium => 1
  | .high => 2

/-- The unified `Finding` record (runStaticAnalysis.ts:15-26), with the declared
TypeScript types of its fields. -/
structure Finding where
  id : String
  file : String
  line : Nat
  title : String
  description : String
  severity : Severity
  confidence : Confidence
  recommendation : String
  tool : String
  category : String
deriving DecidableEq

/-- `severityScores` table of `calculatePriorityScore` (runStaticAnalysis.ts:337). -/
def severityScores : Severity → Nat
  | .critical => 10
  | .high => 7
  | .medium => 4
  | .low => 2
  | .info => 1

/-- `confidenceScores` table of `calculatePriorityScore` (runStaticAnalysis.ts:338). -/
def confidenceScores : Confidence → Nat
  | .high => 3
  | .medium => 2
  | .low => 1

/-- `calculatePriorityScore` (runStaticAnalysis.ts:336-341). -/
def calculatePriorityScore (finding : Finding) : Nat :=
  severityScores finding.severity * confidenceScores finding.confidence

/-- The summary record of `StaticAnalysisResult` (runStaticAnalysis.ts:31-38). -/
structure Summary where
  critical : Nat
  high : Nat
  medium : Nat
  low : Nat
  info : Nat
  total : Nat
deriving DecidableEq

/-- The inline summary computation of `runStaticAnalysis`
(runStaticAnalysis.ts:295-302). -/
def calculateSummary (allFindings : List Finding) : Summary where
  critical := (allFindings.filter fun f => f.severity == Severity.critical).length
  high := (allFindings.filter fun f => f.severity == Severity.high).length
  medium := (allFindings.filter fun f => f.severity == Severity.medium).length
  low := (allFindings.filter fun f => f.severity == Severity.low).length
  info := (allFindings.filter fun f => f.severity == Severity.info).length
  total := allFindings.length

/-- `SEVERITY_MAP` lookup table (runStaticAnalysis.ts:47-58); an absent key
yields `none` (JavaScript `undefined`). -/
def SEVERITY_MAP : String → Option Severity
  | "High" => some .high
  | "Medium" => some .medium
  | "Low" => some .low
  | "Informational" => some .info
  | "error" => some .high
  | "warning" => some .medium
  | "info" => some .info
  | _ => none

/-- `String(n).padStart(3, char 0x30)` as used for finding ids
(runStaticAnalysis.ts:90,153). -/
def padStart3 (n : Nat) : String :=
  let s := toString n
  if s.length ≥ 3 then s else (List.replicate (3 - s.length) '0').asString ++ s

/-- JavaScript `String.prototype.toLowerCase`, modelled as the character-wise
simple case mapping. -/
def jsToLower (s : String) : String :=
  String.mk (s.data.map Char.toLower)

/-- Runtime value of the Slither confidence expression
`detector.confidence?.toLowerCase() OR-ELSE 'medium'` (runStaticAnalysis.ts:96):
a missing confidence, and the empty (falsy) string, fall back to "medium";
any other string is lowercased and passed through by the unchecked cast. -/
def slitherConfidence (confidence : Option String) : String :=
  match confidence with
  | none => "medium"
  | some s => if jsToLower s = "" then "medium" else jsToLower s

/-- The fields of one entry of `report.results.detectors` that `runSlither`
reads (runStaticAnalysis.ts:88-100); each may be absent in the untrusted JSON. -/
structure SlitherDetector where
  impact : Option String
  confidence : Option String
  check : Option String
  description : Option String
  markdown : Option String
  filenameRelative : Option String
  firstLine : Option Nat
deriving DecidableEq

/-- Runtime shape of a normalized finding as the adapters actually build it:
identical to `Finding` except that the confidence field holds whatever string
the Slither adapter's unchecked cast produced. -/
structure RawFinding where
  id : String
  file : String
  line : Nat
  title : String
  description : String
  severity : Severity
  confidence : String
  recommendation : String
  tool : String
  category : String
deriving DecidableEq

/-- The per-detector normalization of `runSlither` (runStaticAnalysis.ts:89-100). -/
def slitherFindingOf (idCounter : Nat) (d : SlitherDetector) : RawFinding where
  id := "SLTH-" ++ padStart3 idCounter
  file := d.filenameRelative.getD "unknown"
  line := d.firstLine.getD 0
  title := d.check.getD "Unknown Issue"
  description := d.description.getD ""
  severity := (d.impact.bind SEVERITY_MAP).getD Severity.info
  confidence := slitherConfidence d.confidence
  recommendation := d.markdown.getD "Review the code carefully"
  tool := "Slither"
  category := d.check.getD "general"

/-- The fields of one Solhint issue that `runSolhint` reads
(runStaticAnalysis.ts:151-163). -/
structure SolhintIssue where
  line : Option Nat
  ruleId : Option String
  message : Option String
  severity : Option String
deriving DecidableEq

/-- The per-issue normalization of `runSolhint` (runStaticAnalysis.ts:152-163). -/
def solhintFindingOf (idCounter : Nat) (filePath : Option String) (issue : SolhintIssue) : RawFinding where
  id := "SLNT-" ++ padStart3 idCounter
  file := filePath.getD "unknown"
  line := issue.line.getD 0
  title := issue.ruleId.getD "Style Issue"
  description := issue.message.getD ""
  severity := (issue.severity.bind SEVERITY_MAP).getD Severity.info
  confidence := "medium"
  recommendation := "Follow Solidity best practices"
  tool := "Solhint"
  category := issue.ruleId.getD "style"

/-- Recognizer for the canonical confidence vocabulary: which runtime strings
actually denote a member of the `Confidence` enum. -/
def parseConfidence : String → Option Confidence
  | "high" => some .high
  | "medium" => some .medium
  | "low" => some .low
  | _ => none

/-- The comparator `(a, b) => calculatePriorityScore(b) - calculatePriorityScore(a)`
passed to `Array.prototype.sort` (smartAuditAgent.ts:313): `a` sorts no later
than `b` exactly when the score of `b` does not exceed the score of `a`. -/
def scoreGE (a b : Finding) : Prop :=
  calculatePriorityScore b ≤ calculatePriorityScore a

instance : DecidableRel scoreGE := fun a b =>
  Nat.decLe (calculatePriorityScore b) (calculatePriorityScore a)

instance : IsTotal Finding scoreGE :=
  ⟨fun a b => Nat.le_total (calculatePriorityScore b) (calculatePriorityScore a)⟩

instance : IsTrans Finding scoreGE :=
  ⟨fun _ _ _ hab hbc => Nat.le_trans hbc hab⟩

/-- `findings.sort(comparator)` (smartAuditAgent.ts:312-313). ECMAScript 2019
requires `Array.prototype.sort` to be stable, and insertion sort realizes
exactly that contract: descending priority, ties in original relative order. -/
def sortFindingsDesc (findings : List Finding) : List Finding :=
  List.insertionSort scoreGE findings

/-- The top-K selection of the spec, realized inline by
`findings.sort(comparator).slice(0, 5)` (smartAuditAgent.ts:312-314): sort
descending by priority, then truncate to the first `k`. -/
def topK (findings : List Finding) (k : Nat) : List Finding :=
  (sortFindingsDesc findings).take k

/-- Outcome of the fan-out over the three analyzers awaited by
`runStaticAnalysis` (runStaticAnalysis.ts:285-289): either all three resolve
with their finding lists, or the awaited block throws with a message
(runStaticAnalysis.ts:318-319). -/
inductive StaticOutcome where
  | ok (slitherFindings solhintFindings patternFindings : List Finding)
  | err (msg : String)
deriving DecidableEq

/-- `StaticAnalysisResult` (runStaticAnalysis.ts:28-42); the wall-clock
`duration` field is not modelled. -/
structure StaticAnalysisResult where
  success : Bool
  findings : List Finding
  summary : Summary
  toolsRun : List String
  error : Option String
deriving DecidableEq

/-- `runStaticAnalysis` (runStaticAnalysis.ts:279-331): on the success path the
three finding lists are concatenated and summarized; the catch path returns an
empty result carrying the error message. -/
def runStaticAnalysis : StaticOutcome → StaticAnalysisResult
  | .ok slitherFindings solhintFindings patternFindings =>
    let allFindings := slitherFindings ++ solhintFindings ++ patternFindings
    { success := true
      findings := allFindings
      summary := calculateSummary allFindings
      toolsRun := "PatternCheck" ::
        ((if slitherFindings.length > 0 then ["Slither"] else []) ++
          (if solhintFindings.length > 0 then ["Solhint"] else []))
      error := none }
  | .err msg =>
    { success := false
      findings := []
      summary := { critical := 0, high := 0, medium := 0, low := 0, info := 0, total := 0 }
      toolsRun := []
      error := some msg }

/-- The configuration fields consumed by the coordinator (config module):
tokens and keys default to the empty string when the environment variable is
absent, and `rpcUrls` to the empty list. -/
structure Config where
  githubToken : String
  testnetPrivateKey : String
  rpcUrls : List String
  telegramToken : String
  telegramChatId : String
  enableStaticAnalysis : Bool
  enableDynamicTesting : Bool
  enableAutoPR : Bool
  enableTelegramNotifications : Bool
deriving DecidableEq

/-- Observable outcome of one `sendTelegramMessage` call. -/
inductive SendLog where
  | skipped
  | sent
  | errorLogged (message : String)
deriving DecidableEq

/-- Whether `initTelegramBot` produced a bot (telegramBot.ts:20-27): requires
the notifications flag and a token. -/
def botReady (cfg : Config) : Bool :=
  cfg.enableTelegramNotifications && !(cfg.telegramToken == "")

/-- The `bot.sendMessage` call (telegramBot.ts:46): the external Telegram API
either resolves or rejects, depending on the sink. -/
def botSendMessage (sinkOk : Bool) : Except String Unit :=
  if sinkOk then .ok () else .error "ETELEGRAM: request failed"

/-- `sendTelegramMessage` (telegramBot.ts:39-54): skips when the bot or chat id
is missing, and catches any rejection of `bot.sendMessage`, merely logging it.
It therefore always returns normally, whatever the sink does. -/
def sendTelegramMessage (cfg : Config) (sinkOk : Bool) : SendLog :=
  if !(botReady cfg) || cfg.telegramChatId == "" then .skipped
  else
    match botSendMessage sinkOk with
    | .ok _ => .sent
    | .error e => .errorLogged e

/-- `CloneRepoResult` (cloneRepo module), as observed by the coordinator. -/
structure CloneRepoResult where
  success : Bool
  localPath : String
  error : Option String
deriving DecidableEq

/-- Result of `validateSolidityRepo` (cloneRepo module). -/
structure ValidationResult where
  isValid : Bool
  contractFiles : List String
  error : Option String
deriving DecidableEq

/-- The summary record of `DynamicTestResult` (runDynamicTests module). -/
structure DynSummary where
  totalDeployed : Nat
  totalTransactions : Nat
  successfulTx : Nat
  failedTx : Nat
deriving DecidableEq

/-- `DynamicTestResult` as observed by the coordinator (runDynamicTests module);
deployment/transaction details are not consumed by the claims. -/
structure DynamicTestResult where
  success : Bool
  summary : DynSummary
  error : Option String
deriving DecidableEq

/-- One automated fix, opaque to the coordinator (generateFixes collaborator). -/
structure Fix where
  file : String
  description : String
deriving DecidableEq

/-- Result of `generateFixes`; per the design it never hard-fails the run. -/
structure FixesResult where
  fixes : List Fix
deriving DecidableEq

/-- Result of `createPR` as observed by the coordinator: `prUrl` is absent when
PR creation failed. -/
structure PRResult where
  success : Bool
  prUrl : Option String
  error : Option String
deriving DecidableEq

/-- `AuditRequest` (smartAuditAgent.ts:22-27); the optional booleans are used
only in boolean positions, where an absent field behaves as false. -/
structure AuditRequest where
  repoUrl : String
  branch : Option String
  runDynamicTests : Bool
  createPullRequest : Bool
deriving DecidableEq

/-- `AuditResult` (smartAuditAgent.ts:29-47); the wall-clock `duration` field is
not modelled. -/
structure AuditResult where
  success : Bool
  auditId : String
  repoUrl : String
  findings : List Finding
  fixes : List Fix
  dynamicTestResult : Option DynamicTestResult
  prUrl : Option String
  summary : Summary
  error : Option String
deriving DecidableEq

/-- The external world one `runAudit` invocation observes: `now` is the
`Date.now()` value at entry (smartAuditAgent.ts:277), the rest are the outcomes
each collaborator would produce if invoked, and `sinkOk` is whether the
Telegram API would accept a message. -/
structure AuditEnv where
  now : Nat
  cloneResult : CloneRepoResult
  validation : ValidationResult
  staticOutcome : StaticOutcome
  dynamicResult : DynamicTestResult
  fixesResult : FixesResult
  prResult : PRResult
  sinkOk : Bool
deriving DecidableEq

/-- Pipeline stages, used to record which collaborators a run invoked. -/
inductive Stage where
  | cloneStage
  | validateStage
  | staticStage
  | dynamicStage
  | fixStage
  | prStage
  | saveStage
deriving DecidableEq

/-- The report object written to `memory/AUDIT_ID/audit-report.json`
(smartAuditAgent.ts:357-374); `dir` is the `process.cwd()`-relative directory
`path.join('memory', auditId)` the artifact is persisted under. -/
structure AuditReport where
  auditId : String
  dir : String
  repoUrl : String
  staticAnalysis : StaticAnalysisResult
  dynamicTests : Option DynamicTestResult
  fixes : FixesResult
  prUrl : Option String
deriving DecidableEq

/-- Everything one `runAudit` invocation produces: the returned `AuditResult`,
the persisted report (absent on the catch path), the stages that actually
executed, and the log of notification attempts in emission order. -/
structure RunBundle where
  result : AuditResult
  report : Option AuditReport
  stagesRun : List Stage
  notifications : List SendLog
deriving DecidableEq

/-- The failure `AuditResult` built by the catch block of `runAudit`
(smartAuditAgent.ts:399-408). -/
def failedAuditResult (auditId : String) (request : AuditRequest) (errorMsg : String) : AuditResult where
  success := false
  auditId := auditId
  repoUrl := request.repoUrl
  findings := []
  fixes := []
  dynamicTestResult := none
  prUrl := none
  summary := { critical := 0, high := 0, medium := 0, low := 0, info := 0, total := 0 }
  error := some errorMsg

/-- `runAudit` (smartAuditAgent.ts:276-410), statement by statement. Hard-stage
failures throw and are converted by the catch block into a failure result; the
`.sort` call mutates `staticResult.findings` in place, so every later read of
that array (the report, the returned result) observes the sorted permutation.
String interpolation of an absent error renders "undefined" as in JavaScript. -/
def runAudit (cfg : Config) (env : AuditEnv) (request : AuditRequest) : RunBundle :=
  let auditId := "audit-" ++ toString env.now
  let startLog := sendTelegramMessage cfg env.sinkOk
  if !env.cloneResult.success then
    { result := failedAuditResult auditId request
        ("Clone failed: " ++ env.cloneResult.error.getD "undefined")
      report := none
      stagesRun := [.cloneStage]
      notifications := [startLog, sendTelegramMessage cfg env.sinkOk] }
  else if !env.validation.isValid then
    { result := failedAuditResult auditId request
        ("No Solidity contracts found: " ++ env.validation.error.getD "undefined")
      report := none
      stagesRun := [.cloneStage, .validateStage]
      notifications := [startLog, sendTelegramMessage cfg env.sinkOk] }
  else
    let cloneLog := sendTelegramMessage cfg env.sinkOk
    let staticResult := runStaticAnalysis env.staticOutcome
    if !staticResult.success then
      { result := failedAuditResult auditId request
          ("Static analysis failed: " ++ staticResult.error.getD "undefined")
        report := none
        stagesRun := [.cloneStage, .validateStage, .staticStage]
        notifications := [startLog, cloneLog, sendTelegramMessage cfg env.sinkOk] }
    else
      let sortedFindings := sortFindingsDesc staticResult.findings
      let staticMutated := { staticResult with findings := sortedFindings }
      let analysisLog := sendTelegramMessage cfg env.sinkOk
      let runDyn := request.runDynamicTests && cfg.enableDynamicTesting
      let dynamicResult : Option DynamicTestResult :=
        if runDyn then some env.dynamicResult else none
      let dynLogs : List SendLog :=
        if runDyn && env.dynamicResult.success then [sendTelegramMessage cfg env.sinkOk] else []
      let fixesResult := env.fixesResult
      let runPR := request.createPullRequest && cfg.enableAutoPR
      let prUrl : Option String := if runPR then env.prResult.prUrl else none
      let prLogs : List SendLog :=
        if runPR && env.prResult.prUrl.isSome then [sendTelegramMessage cfg env.sinkOk] else []
      let report : AuditReport :=
        { auditId := auditId
          dir := "memory/" ++ auditId
          repoUrl := request.repoUrl
          staticAnalysis := staticMutated
          dynamicTests := dynamicResult
          fixes := fixesResult
          prUrl := prUrl }
      let result : AuditResult :=
        { success := true
          auditId := auditId
          repoUrl := request.repoUrl
          findings := staticMutated.findings
          fixes := fixesResult.fixes
          dynamicTestResult := dynamicResult
          prUrl := prUrl
          summary := staticMutated.summary
          error := none }
      { result := result
        report := some report
        stagesRun := [.cloneStage, .validateStage, .staticStage] ++
          (if runDyn then [.dynamicStage] else []) ++ [.fixStage] ++
          (if runPR then [.prStage] else []) ++ [.saveStage]
        notifications := [startLog, cloneLog, analysisLog] ++ dynLogs ++ prLogs ++
          [sendTelegramMessage cfg env.sinkOk] }

/-- What the `execute_audit` tool returns plus the stages it invoked
(smartAuditAgent.ts:99-218). -/
structure ExecuteBundle where
  success : Bool
  auditId : String
  error : Option String
  summary : Option Summary
  dynamicResult : Option DynamicTestResult
  prUrl : Option String
  stagesRun : List Stage
deriving DecidableEq

/-- The `execute_audit` tool body (smartAuditAgent.ts:99-218). Unlike
`runAudit`, its optional-stage gates also require the collaborator credentials:
dynamic testing needs the testnet key and at least one RPC URL
(smartAuditAgent.ts:136), PR creation needs the GitHub token
(smartAuditAgent.ts:155). -/
def executeAudit (cfg : Config) (env : AuditEnv) : ExecuteBundle :=
  let auditId := "audit-" ++ toString env.now
  if !env.cloneResult.success then
    { success := false, auditId := auditId
      error := some ("Clone failed: " ++ env.cloneResult.error.getD "undefined")
      summary := none, dynamicResult := none, prUrl := none
      stagesRun := [.cloneStage] }
  else if !env.validation.isValid then
    { success := false, auditId := auditId
      error := some ("Validation failed: " ++ env.validation.error.getD "undefined")
      summary := none, dynamicResult := none, prUrl := none
      stagesRun := [.cloneStage, .validateStage] }
  else
    let staticResult := runStaticAnalysis env.staticOutcome
    if !staticResult.success then
      { success := false, auditId := auditId
        error := some ("Static analysis failed: " ++ staticResult.error.getD "undefined")
        summary := none, dynamicResult := none, prUrl := none
        stagesRun := [.cloneStage, .validateStage, .staticStage] }
    else
      let runDyn := cfg.enableDynamicTesting && !(cfg.testnetPrivateKey == "") &&
        decide (0 < cfg.rpcUrls.length)
      let dynamicResult : Option DynamicTestResult :=
        if runDyn then some env.dynamicResult else none
      let runPR := cfg.enableAutoPR && !(cfg.githubToken == "")
      let prResult : Option PRResult := if runPR then some env.prResult else none
      { success := true, auditId := auditId
        error := none
        summary := some staticResult.summary
        dynamicResult := dynamicResult
        prUrl := prResult.bind PRResult.prUrl
        stagesRun := [.cloneStage, .validateStage, .staticStage] ++
          (if runDyn then [.dynamicStage] else []) ++ [.fixStage] ++
          (if runPR then [.prStage] else []) ++ [.saveStage] }

/-- Run lifecycle states of the server registry (server.ts:35). -/
inductive RunStatus where
  | queued
  | running
  | completed
  | failed
deriving DecidableEq

/-- `AuditStatus` registry record (server.ts:31-46); timestamps are
milliseconds. The transient `progress` field is not modelled. -/
structure AuditStatus where
  id : String
  repoUrl : String
  branch : String
  status : RunStatus
  startedAt : Nat
  completedAt : Option Nat
  result : Option AuditResult
  error : Option String
deriving DecidableEq

/-- The request body of POST /api/audit/start (server.ts:78), with its
destructuring defaults branch "main", runDynamicTests true,
createPullRequest true. -/
structure StartBody where
  repoUrl : String
  branch : Option String
  runDynamicTests : Option Bool
  createPullRequest : Option Bool
deriving DecidableEq

/-- The `AuditRequest` the server passes to `runAudit` (server.ts:128-133),
after applying the destructuring defaults. -/
def requestOf (body : StartBody) : AuditRequest where
  repoUrl := body.repoUrl
  branch := some (body.branch.getD "main")
  runDynamicTests := body.runDynamicTests.getD true
  createPullRequest := body.createPullRequest.getD true

/-- The registry record created and stored before the background task starts
(server.ts:84-93): keyed by an id derived from the server's `Date.now()`. -/
def startAuditRecord (serverNow : Nat) (body : StartBody) : AuditStatus where
  id := "audit-" ++ toString serverNow
  repoUrl := body.repoUrl
  branch := body.branch.getD "main"
  status := .queued
  startedAt := serverNow
  completedAt := none
  result := none
  error := none

/-- How the awaited `runAudit(...)` promise settles (server.ts:128-133):
`runAudit` wraps its whole body in try/catch and returns a failure
`AuditResult` instead of rejecting, so the promise always fulfills. -/
def runAuditSettled (cfg : Config) (env : AuditEnv) (request : AuditRequest) :
    Except String AuditResult :=
  Except.ok (runAudit cfg env request).result

/-- The background task of POST /api/audit/start (server.ts:97-154): marks the
run running, awaits `runAudit`, and on fulfillment marks the run completed with
the result; only a rejection would reach the catch that marks it failed. -/
def backgroundAudit (cfg : Config) (env : AuditEnv) (serverNow endNow : Nat)
    (body : StartBody) : AuditStatus :=
  let audit := { startAuditRecord serverNow body with status := RunStatus.running }
  match runAuditSettled cfg env (requestOf body) with
  | .ok r =>
    { audit with status := .completed, completedAt := some endNow, result := some r }
  | .error e =>
    { audit with status := .failed, completedAt := some endNow, error := some e }

/-- A concrete pattern-check style finding, used to instantiate theorems. -/
def sampleFinding (sev : Severity) (conf : Confidence) : Finding where
  id := "PTRN-001"
  file := "Contract.sol"
  line := 1
  title := "tx.origin usage detected"
  description := "Found suspicious pattern"
  severity := sev
  confidence := conf
  recommendation := "Use msg.sender instead of tx.origin"
  tool := "PatternCheck"
  category := "security"

/-- Every finding lands in exactly one severity bucket, so the five bucket
counts partition the list. -/
lemma severity_bucket_sum (l : List Finding) :
    (l.filter fun f => f.severity == Severity.critical).length +
      (l.filter fun f => f.severity == Severity.high).length +
      (l.filter fun f => f.severity == Severity.medium).length +
      (l.filter fun f => f.severity == Severity.low).length +
      (l.filter fun f => f.severity == Severity.info).length = l.length := by
  induction l with
  | nil => rfl
  | cons f t ih =>
    cases hf : f.severity <;> simp [List.filter_cons, hf] <;> omega

/-- C4: for every finding, the priority score is the product of the severity
weight and the confidence weight, with severity weights info 1, low 2,
medium 4, high 7, critical 10 and confidence weights low 1, medium 2, high 3;
consequently the score is strictly increasing in severity with confidence
fixed, and strictly increasing in confidence with severity fixed. -/
theorem priorityScore_weights_and_monotone :
    (severityScores .info = 1 ∧ severityScores .low = 2 ∧ severityScores .medium = 4 ∧
      severityScores .high = 7 ∧ severityScores .critical = 10 ∧
      confidenceScores .low = 1 ∧ confidenceScores .medium = 2 ∧ confidenceScores .high = 3) ∧
    (∀ f : Finding,
      calculatePriorityScore f = severityScores f.severity * confidenceScores f.confidence) ∧
    (∀ f g : Finding, f.confidence = g.confidence → f.severity.rank < g.severity.rank →
      calculatePriorityScore f < calculatePriorityScore g) ∧
    (∀ f g : Finding, f.severity = g.severity → f.confidence.rank < g.confidence.rank →
      calculatePriorityScore f < calculatePriorityScore g) := by
  refine ⟨by decide, fun f => rfl, ?_, ?_⟩
  · intro f g hc hs
    unfold calculatePriorityScore
    rw [hc]
    revert hs
    cases f.severity <;> cases g.severity <;> cases g.confidence <;> decide
  · intro f g hs hc
    unfold calculatePriorityScore
    rw [hs]
    revert hc
    cases f.confidence <;> cases g.confidence <;> cases g.severity <;> decide

/-- Witness for C4 at concrete findings: a medium-severity finding outranks a
low-severity one at equal confidence, and higher confidence outranks lower at
equal severity. -/
theorem priorityScore_weights_and_monotone_witness :
    calculatePriorityScore (sampleFinding .low .low) <
      calculatePriorityScore (sampleFinding .medium .low) ∧
    calculatePriorityScore (sampleFinding .medium .low) <
      calculatePriorityScore (sampleFinding .medium .medium) :=
  ⟨priorityScore_weights_and_monotone.2.2.1 (sampleFinding .low .low)
      (sampleFinding .medium .low) rfl (by decide),
    priorityScore_weights_and_monotone.2.2.2 (sampleFinding .medium .low)
      (sampleFinding .medium .medium) rfl (by decide)⟩

/-- C5: on both the success path and the failure path of `runStaticAnalysis`,
`summary.total` equals `findings.length` and the five severity buckets sum to
the total. -/
theorem static_summary_invariant (o : StaticOutcome) :
    (runStaticAnalysis o).summary.total = (runStaticAnalysis o).findings.length ∧
    (runStaticAnalysis o).summary.critical + (runStaticAnalysis o).summary.high +
      (runStaticAnalysis o).summary.medium + (runStaticAnalysis o).summary.low +
      (runStaticAnalysis o).summary.info = (runStaticAnalysis o).summary.total := by
  cases o with
  | err msg => exact ⟨rfl, rfl⟩
  | ok sl so pa => exact ⟨rfl, severity_bucket_sum (sl ++ so ++ pa)⟩

/-- C6 counterexample: the Slither detector confidence value "Exact" is not in
the canonical vocabulary, yet normalization passes it through lowercased
instead of defaulting it to "medium" — the cast at runStaticAnalysis.ts:96
performs no lookup. -/
theorem slither_confidence_passthrough :
    (slitherFindingOf 1
      { impact := some "High", confidence := some "Exact", check := some "suicidal",
        description := none, markdown := none, filenameRelative := none,
        firstLine := none }).confidence = "exact" ∧
    parseConfidence "exact" = none ∧
    (slitherFindingOf 1
      { impact := some "High", confidence := some "Exact", check := some "suicidal",
        description := none, markdown := none, filenameRelative := none,
        firstLine := none }).confidence ≠ "medium" := by
  refine ⟨by decide, rfl, by decide⟩

/-- C6 amended: normalization is total (the adapters are plain mappings with
fallbacks), an unmapped or missing native severity defaults to `info`, a
missing (or empty) native confidence defaults to "medium", but a non-empty
unmapped native confidence is passed through lowercased by the unchecked cast;
Solhint findings always receive confidence "medium". -/
theorem normalization_defaults :
    (∀ (n : Nat) (d : SlitherDetector), d.impact.bind SEVERITY_MAP = none →
      (slitherFindingOf n d).severity = Severity.info) ∧
    (∀ (n : Nat) (d : SlitherDetector), d.confidence = none →
      (slitherFindingOf n d).confidence = "medium") ∧
    (∀ (n : Nat) (d : SlitherDetector) (s : String), d.confidence = some s →
      jsToLower s ≠ "" → (slitherFindingOf n d).confidence = jsToLower s) ∧
    (∀ (n : Nat) (fp : Option String) (issue : SolhintIssue),
      issue.severity.bind SEVERITY_MAP = none →
      (solhintFindingOf n fp issue).severity = Severity.info) ∧
    (∀ (n : Nat) (fp : Option String) (issue : SolhintIssue),
      (solhintFindingOf n fp issue).confidence = "medium") := by
  refine ⟨?_, ?_, ?_, ?_, fun n fp issue => rfl⟩
  · intro n d h
    simp [slitherFindingOf, h]
  · intro n d h
    simp [slitherFindingOf, slitherConfidence, h]
  · intro n d s h hs
    simp [slitherFindingOf, slitherConfidence, h, hs]
  · intro n fp issue h
    simp [solhintFindingOf, h]

/-- Witness for C6 at concrete inputs: a Slither detector with the unmapped
impact "Optimization" normalizes to severity `info`, and a Solhint issue gets
confidence "medium". -/
theorem normalization_defaults_witness :
    (slitherFindingOf 2
      { impact := some "Optimization", confidence := none, check := none,
        description := none, markdown := none, filenameRelative := none,
        firstLine := none }).severity = Severity.info ∧
    (solhintFindingOf 1 (some "contracts/Token.sol")
      { line := some 3, ruleId := some "avoid-tx-origin", message := none,
        severity := some "warning" }).confidence = "medium" :=
  ⟨normalization_defaults.1 2
      { impact := some "Optimization", confidence := none, check := none,
        description := none, markdown := none, filenameRelative := none,
        firstLine := none } (by decide),
    normalization_defaults.2.2.2.2 1 (some "contracts/Token.sol")
      { line := some 3, ruleId := some "avoid-tx-origin", message := none,
        severity := some "warning" }⟩

/-- `orderedInsert` only passes over strictly higher-scoring findings, so on a
fixed-score fiber it either prepends the inserted finding (score matches) or
leaves the fiber unchanged. -/
lemma filter_score_orderedInsert (f : Finding) (v : Nat) :
    ∀ l : List Finding,
      (List.orderedInsert scoreGE f l).filter (fun g => calculatePriorityScore g == v) =
        if calculatePriorityScore f == v
        then f :: l.filter (fun g => calculatePriorityScore g == v)
        else l.filter (fun g => calculatePriorityScore g == v)
  | [] => by
    by_cases hf : calculatePriorityScore f == v <;>
      simp [List.orderedInsert, List.filter_cons, hf]
  | b :: l => by
    by_cases hb : scoreGE f b
    · rw [List.orderedInsert_of_le scoreGE l hb]
      by_cases hf : calculatePriorityScore f == v <;>
        simp [List.filter_cons, hf]
    · have hstep : List.orderedInsert scoreGE f (b :: l) =
          b :: List.orderedInsert scoreGE f l := by
        simp [List.orderedInsert, hb]
      rw [hstep, List.filter_cons, List.filter_cons, filter_score_orderedInsert f v l]
      have hfb : calculatePriorityScore f < calculatePriorityScore b :=
        Nat.lt_of_not_le hb
      by_cases hf : calculatePriorityScore f == v
      · have hbv : ¬(calculatePriorityScore b == v) = true := by
          rw [beq_iff_eq] at hf ⊢
          omega
        simp [hf, hbv]
      · simp [hf]

/-- Stability of the findings sort, expressed fiberwise: for every priority
value, the findings attaining it appear in the sorted output in exactly their
original relative order. -/
lemma filter_score_sortFindingsDesc (v : Nat) :
    ∀ l : List Finding,
      (sortFindingsDesc l).filter (fun g => calculatePriorityScore g == v) =
        l.filter (fun g => calculatePriorityScore g == v)
  | [] => rfl
  | f :: l => by
    have ih := filter_score_sortFindingsDesc v l
    unfold sortFindingsDesc at ih ⊢
    rw [List.insertionSort, filter_score_orderedInsert, ih, List.filter_cons]

/-- C7: with `k` at least the length of the list, the top-K selection returns
the whole list sorted descending by priority score, a permutation of the input
that is pairwise descending, with every tie class kept in its original
relative order. -/
theorem topK_keeps_all_sorted (l : List Finding) (k : Nat) (hk : l.length ≤ k) :
    topK l k = sortFindingsDesc l ∧
    (sortFindingsDesc l).Perm l ∧
    List.Sorted scoreGE (sortFindingsDesc l) ∧
    ∀ v : Nat,
      (sortFindingsDesc l).filter (fun g => calculatePriorityScore g == v) =
        l.filter (fun g => calculatePriorityScore g == v) := by
  refine ⟨?_, List.perm_insertionSort scoreGE l, List.sorted_insertionSort scoreGE l,
    fun v => filter_score_sortFindingsDesc v l⟩
  unfold topK
  refine List.take_of_length_le ?_
  calc (sortFindingsDesc l).length = l.length :=
        (List.perm_insertionSort scoreGE l).length_eq
    _ ≤ k := hk

/-- Witness for C7 on a concrete three-finding list with a tie: `topK` with
`k = 5` returns the full descending sort, and the tied pair keeps its input
order. -/
theorem topK_keeps_all_sorted_witness :
    topK [sampleFinding .low .high, sampleFinding .critical .high,
        sampleFinding .low .high] 5 =
      sortFindingsDesc [sampleFinding .low .high, sampleFinding .critical .high,
        sampleFinding .low .high] ∧
    sortFindingsDesc [sampleFinding .low .high, sampleFinding .critical .high,
        sampleFinding .low .high] =
      [sampleFinding .critical .high, sampleFinding .low .high,
        sampleFinding .low .high] :=
  ⟨(topK_keeps_all_sorted
      [sampleFinding .low .high, sampleFinding .critical .high,
        sampleFinding .low .high] 5 (by decide)).1,
    by decide⟩

/-- C10: computing the top-5 notification subset sorts the findings array in
place, so on the success path both the findings carried in the returned
`AuditResult` and those inside the persisted report are the
descending-priority stable sort of the analyzers' concatenated output — which,
as the closed conjunct shows on a concrete input, differs from the original
concatenation order. -/
theorem runAudit_findings_sorted (cfg : Config) (env : AuditEnv) (req : AuditRequest)
    (sl so pa : List Finding)
    (hc : env.cloneResult.success = true)
    (hv : env.validation.isValid = true)
    (hs : env.staticOutcome = .ok sl so pa) :
    (runAudit cfg env req).result.findings = sortFindingsDesc (sl ++ so ++ pa) ∧
    ((runAudit cfg env req).report.map fun rep => rep.staticAnalysis.findings) =
      some (sortFindingsDesc (sl ++ so ++ pa)) ∧
    sortFindingsDesc [sampleFinding .low .high, sampleFinding .critical .high] ≠
      [sampleFinding .low .high, sampleFinding .critical .high] := by
  refine ⟨?_, ?_, by decide⟩ <;>
    simp [runAudit, hc, hv, hs, runStaticAnalysis]

/-- A configuration with no credentials and all optional features off. -/
def cfgBase : Config :=
  ⟨"", "", [], "", "", true, false, false, false⟩

/-- A failed dynamic-test outcome (compilation failed, nothing deployed). -/
def failedDynamic : DynamicTestResult :=
  ⟨false, ⟨0, 0, 0, 0⟩, some "Contract compilation failed"⟩

/-- An external world in which clone and validation succeed, the analyzers
report a low and a critical finding, dynamic testing would fail, fix
generation yields nothing, PR creation would fail, and the Telegram API is up;
`Date.now()` at `runAudit` entry reads 1001. -/
def envOk : AuditEnv where
  now := 1001
  cloneResult := ⟨true, "cloned-repos/demo-1", none⟩
  validation := ⟨true, ["Token.sol"], none⟩
  staticOutcome := .ok [sampleFinding .low .high] [] [sampleFinding .critical .high]
  dynamicResult := failedDynamic
  fixesResult := ⟨[]⟩
  prResult := ⟨false, none, none⟩
  sinkOk := true

/-- A request that declines both optional stages. -/
def reqBase : AuditRequest :=
  ⟨"https://github.com/demo/repo", some "main", false, false⟩

/-- Witness for C10 at a concrete run: the returned findings are the sorted
permutation of the two analyzer findings, with the critical one first. -/
theorem runAudit_findings_sorted_witness :
    (runAudit cfgBase envOk reqBase).result.findings =
      sortFindingsDesc ([sampleFinding .low .high] ++ [] ++
        [sampleFinding .critical .high]) :=
  (runAudit_findings_sorted cfgBase envOk reqBase _ _ _ rfl rfl rfl).1

/-- A fully credentialed configuration with every feature enabled. -/
def cfgFull : Config :=
  ⟨"ghp-sampletoken", "0xabc123", ["https://sepolia-rollup.arbitrum.io/rpc"],
    "75sample-bot-token", "-100123456", true, true, true, true⟩

/-- A start-request body relying on every destructuring default (branch
"main", dynamic tests and PR creation requested). -/
def bodyBase : StartBody :=
  ⟨"https://github.com/demo/repo", none, none, none⟩

/-- C2: when clone, validation and static analysis succeed and the gated
dynamic-testing stage runs but fails, the run still succeeds: the failed
`DynamicTestResult` is recorded in the result (not as the terminal error,
which stays unset), the summary derived from the static findings is present,
and the server registry marks the run completed. -/
theorem dynamic_soft_failure (cfg : Config) (env : AuditEnv) (body : StartBody)
    (serverNow endNow : Nat) (sl so pa : List Finding)
    (hc : env.cloneResult.success = true)
    (hv : env.validation.isValid = true)
    (hs : env.staticOutcome = .ok sl so pa)
    (hreq : (requestOf body).runDynamicTests = true)
    (hflag : cfg.enableDynamicTesting = true)
    (hdyn : env.dynamicResult.success = false) :
    (runAudit cfg env (requestOf body)).result.success = true ∧
    (runAudit cfg env (requestOf body)).result.dynamicTestResult =
      some env.dynamicResult ∧
    env.dynamicResult.success = false ∧
    (runAudit cfg env (requestOf body)).result.error = none ∧
    (runAudit cfg env (requestOf body)).result.summary =
      calculateSummary (sl ++ so ++ pa) ∧
    (backgroundAudit cfg env serverNow endNow body).status = RunStatus.completed := by
  refine ⟨?_, ?_, hdyn, ?_, ?_, ?_⟩ <;>
    simp [runAudit, backgroundAudit, runAuditSettled, startAuditRecord,
      hc, hv, hs, hreq, hflag, runStaticAnalysis]

/-- Witness for C2 at a concrete run whose dynamic-test stage fails: the run
succeeds, the failed stage outcome is recorded, and the registry says
completed. -/
theorem dynamic_soft_failure_witness :
    (runAudit cfgFull envOk (requestOf bodyBase)).result.success = true ∧
    (runAudit cfgFull envOk (requestOf bodyBase)).result.dynamicTestResult =
      some envOk.dynamicResult ∧
    (backgroundAudit cfgFull envOk 1000 1005 bodyBase).status =
      RunStatus.completed :=
  have h := dynamic_soft_failure cfgFull envOk bodyBase 1000 1005 _ _ _
    rfl rfl rfl rfl rfl rfl
  ⟨h.1, h.2.1, h.2.2.2.2.2⟩

/-- C1: when the clone stage or the content-validation stage fails, no later
stage executes, no report is persisted, and the returned `AuditResult` carries
`success = false` with the failing stage's message as its error — but the
server's background task, which only reaches its failure branch if the
`runAudit` promise rejects (it never does: `runAudit` catches internally and
returns the failure result), marks the registry run `completed` with its
`error` field unset, contradicting the documented `status = failed`. -/
theorem hard_failure_stops_pipeline (cfg : Config) (env : AuditEnv) (body : StartBody)
    (serverNow endNow : Nat) :
    (env.cloneResult.success = false →
      (runAudit cfg env (requestOf body)).result.success = false ∧
      (runAudit cfg env (requestOf body)).result.error =
        some ("Clone failed: " ++ env.cloneResult.error.getD "undefined") ∧
      (runAudit cfg env (requestOf body)).stagesRun = [Stage.cloneStage] ∧
      (runAudit cfg env (requestOf body)).report = none ∧
      (backgroundAudit cfg env serverNow endNow body).status = RunStatus.completed ∧
      (backgroundAudit cfg env serverNow endNow body).error = none) ∧
    (env.cloneResult.success = true → env.validation.isValid = false →
      (runAudit cfg env (requestOf body)).result.success = false ∧
      (runAudit cfg env (requestOf body)).result.error =
        some ("No Solidity contracts found: " ++ env.validation.error.getD "undefined") ∧
      (runAudit cfg env (requestOf body)).stagesRun =
        [Stage.cloneStage, Stage.validateStage] ∧
      (runAudit cfg env (requestOf body)).report = none ∧
      (backgroundAudit cfg env serverNow endNow body).status = RunStatus.completed ∧
      (backgroundAudit cfg env serverNow endNow body).error = none) := by
  constructor
  · intro hc
    refine ⟨?_, ?_, ?_, ?_, ?_, ?_⟩ <;>
      simp [runAudit, failedAuditResult, backgroundAudit, runAuditSettled,
        startAuditRecord, hc]
  · intro hc hv
    refine ⟨?_, ?_, ?_, ?_, ?_, ?_⟩ <;>
      simp [runAudit, failedAuditResult, backgroundAudit, runAuditSettled,
        startAuditRecord, hc, hv]

/-- An external world in which the clone stage fails. -/
def envCloneFail : AuditEnv :=
  { envOk with cloneResult := ⟨false, "", some "fatal: repository not found"⟩ }

/-- Witness for C1 at a concrete failing clone: the pipeline stops at the
clone stage with the clone message as the result's error, yet the registry
entry reads completed with no error. -/
theorem hard_failure_stops_pipeline_witness :
    (runAudit cfgBase envCloneFail (requestOf bodyBase)).result.error =
      some "Clone failed: fatal: repository not found" ∧
    (runAudit cfgBase envCloneFail (requestOf bodyBase)).stagesRun =
      [Stage.cloneStage] ∧
    (backgroundAudit cfgBase envCloneFail 1000 1005 bodyBase).status =
      RunStatus.completed ∧
    (backgroundAudit cfgBase envCloneFail 1000 1005 bodyBase).error = none :=
  have h := (hard_failure_stops_pipeline cfgBase envCloneFail bodyBase 1000 1005).1 rfl
  ⟨h.2.1, h.2.2.1, h.2.2.2.2.1, h.2.2.2.2.2⟩

/-- A configuration with both optional feature flags on but every collaborator
credential absent (empty token, empty key, no RPC URLs). -/
def cfgNoCreds : Config :=
  ⟨"", "", [], "", "", true, true, true, false⟩

/-- A request asking for both optional stages. -/
def reqAllOn : AuditRequest :=
  ⟨"https://github.com/demo/repo", some "main", true, true⟩

/-- C3 counterexample: with the feature flags on but the testnet key, RPC URLs
and GitHub token all absent, `runAudit` still executes the dynamic-testing and
PR stages — the stage runs (and its failure is recorded) instead of being
skipped for missing credentials. -/
theorem optional_gating_counterexample :
    cfgNoCreds.enableDynamicTesting = true ∧
    cfgNoCreds.testnetPrivateKey = "" ∧
    cfgNoCreds.rpcUrls = [] ∧
    cfgNoCreds.enableAutoPR = true ∧
    cfgNoCreds.githubToken = "" ∧
    Stage.dynamicStage ∈ (runAudit cfgNoCreds envOk reqAllOn).stagesRun ∧
    Stage.prStage ∈ (runAudit cfgNoCreds envOk reqAllOn).stagesRun ∧
    (runAudit cfgNoCreds envOk reqAllOn).result.dynamicTestResult =
      some failedDynamic := by
  refine ⟨rfl, rfl, rfl, rfl, rfl, ?_, ?_, ?_⟩ <;>
    simp [runAudit, envOk, runStaticAnalysis, reqAllOn, cfgNoCreds]

/-- C3 amended: in `runAudit` each optional stage is gated only by the
per-request option together with the feature flag — credentials are not
consulted — while in the `execute_audit` tool the gate is the feature flag
together with the credentials; in both, a gated-off stage leaves no failure
record (its result is simply absent) and the pipeline proceeds to success. -/
theorem optional_stage_gating (cfg : Config) (env : AuditEnv) (req : AuditRequest)
    (sl so pa : List Finding)
    (hc : env.cloneResult.success = true)
    (hv : env.validation.isValid = true)
    (hs : env.staticOutcome = .ok sl so pa) :
    (Stage.dynamicStage ∈ (runAudit cfg env req).stagesRun ↔
      (req.runDynamicTests && cfg.enableDynamicTesting) = true) ∧
    (Stage.prStage ∈ (runAudit cfg env req).stagesRun ↔
      (req.createPullRequest && cfg.enableAutoPR) = true) ∧
    ((req.runDynamicTests && cfg.enableDynamicTesting) = false →
      (runAudit cfg env req).result.dynamicTestResult = none ∧
      (runAudit cfg env req).result.success = true) ∧
    ((req.createPullRequest && cfg.enableAutoPR) = false →
      (runAudit cfg env req).result.prUrl = none ∧
      (runAudit cfg env req).result.success = true) ∧
    (Stage.dynamicStage ∈ (executeAudit cfg env).stagesRun ↔
      (cfg.enableDynamicTesting && !(cfg.testnetPrivateKey == "") &&
        decide (0 < cfg.rpcUrls.length)) = true) ∧
    (Stage.prStage ∈ (executeAudit cfg env).stagesRun ↔
      (cfg.enableAutoPR && !(cfg.githubToken == "")) = true) ∧
    ((cfg.enableDynamicTesting && !(cfg.testnetPrivateKey == "") &&
        decide (0 < cfg.rpcUrls.length)) = false →
      (executeAudit cfg env).dynamicResult = none ∧
      (executeAudit cfg env).success = true) ∧
    ((cfg.enableAutoPR && !(cfg.githubToken == "")) = false →
      (executeAudit cfg env).prUrl = none ∧
      (executeAudit cfg env).success = true) := by
  refine ⟨?_, ?_, ?_, ?_, ?_, ?_, ?_, ?_⟩
  · cases hd : req.runDynamicTests && cfg.enableDynamicTesting <;>
      simp [runAudit, hc, hv, hs, runStaticAnalysis, hd]
  · cases hp : req.createPullRequest && cfg.enableAutoPR <;>
      simp [runAudit, hc, hv, hs, runStaticAnalysis, hp]
  · intro hd
    refine ⟨?_, ?_⟩ <;> simp [runAudit, hc, hv, hs, runStaticAnalysis, hd]
  · intro hp
    refine ⟨?_, ?_⟩ <;> simp [runAudit, hc, hv, hs, runStaticAnalysis, hp]
  · cases hd : cfg.enableDynamicTesting && !(cfg.testnetPrivateKey == "") &&
        decide (0 < cfg.rpcUrls.length) <;>
      simp [executeAudit, hc, hv, hs, runStaticAnalysis, hd]
  · cases hp : cfg.enableAutoPR && !(cfg.githubToken == "") <;>
      simp [executeAudit, hc, hv, hs, runStaticAnalysis, hp]
  · intro hd
    refine ⟨?_, ?_⟩ <;> simp [executeAudit, hc, hv, hs, runStaticAnalysis, hd]
  · intro hp
    refine ⟨?_, ?_⟩ <;> simp [executeAudit, hc, hv, hs, runStaticAnalysis, hp]

/-- Witness for C3: with full credentials and flags the gates open in both
entry points, and with everything off the stage result is absent while the
run still succeeds. -/
theorem optional_stage_gating_witness :
    Stage.dynamicStage ∈ (runAudit cfgFull envOk reqAllOn).stagesRun ∧
    Stage.dynamicStage ∈ (executeAudit cfgFull envOk).stagesRun ∧
    (runAudit cfgBase envOk reqBase).result.dynamicTestResult = none ∧
    (executeAudit cfgBase envOk).dynamicResult = none :=
  have hFull := optional_stage_gating cfgFull envOk reqAllOn _ _ _ rfl rfl rfl
  have hBase := optional_stage_gating cfgBase envOk reqBase _ _ _ rfl rfl rfl
  ⟨hFull.1.mpr rfl, hFull.2.2.2.2.1.mpr rfl,
    (hBase.2.2.1 rfl).1, (hBase.2.2.2.2.2.2.1 rfl).1⟩

/-- The outcome of `runAudit` other than its notification log does not depend
on whether the Telegram API accepts messages. -/
lemma runAudit_sink_independent (cfg : Config) (env : AuditEnv) (req : AuditRequest)
    (b : Bool) :
    (runAudit cfg { env with sinkOk := b } req).result = (runAudit cfg env req).result ∧
    (runAudit cfg { env with sinkOk := b } req).report = (runAudit cfg env req).report ∧
    (runAudit cfg { env with sinkOk := b } req).stagesRun =
      (runAudit cfg env req).stagesRun := by
  by_cases hc : env.cloneResult.success <;>
    by_cases hv : env.validation.isValid <;>
    by_cases hs : (runStaticAnalysis env.staticOutcome).success <;>
    simp [runAudit, hc, hv, hs]

/-- C8: `sendTelegramMessage` swallows a rejected send (returning a normal
log entry), so any two executions of the same run that differ only in whether
the notification sink succeeds produce identical results, reports, stage
traces, and registry records. -/
theorem notification_failure_isolated :
    (∀ (cfg : Config) (env : AuditEnv) (req : AuditRequest) (b1 b2 : Bool),
      (runAudit cfg { env with sinkOk := b1 } req).result =
        (runAudit cfg { env with sinkOk := b2 } req).result ∧
      (runAudit cfg { env with sinkOk := b1 } req).report =
        (runAudit cfg { env with sinkOk := b2 } req).report ∧
      (runAudit cfg { env with sinkOk := b1 } req).stagesRun =
        (runAudit cfg { env with sinkOk := b2 } req).stagesRun) ∧
    (∀ (cfg : Config) (env : AuditEnv) (body : StartBody) (sN eN : Nat) (b1 b2 : Bool),
      backgroundAudit cfg { env with sinkOk := b1 } sN eN body =
        backgroundAudit cfg { env with sinkOk := b2 } sN eN body) ∧
    sendTelegramMessage cfgFull false = SendLog.errorLogged "ETELEGRAM: request failed" ∧
    sendTelegramMessage cfgFull true = SendLog.sent := by
  refine ⟨?_, ?_, rfl, rfl⟩
  · intro cfg env req b1 b2
    have h1 := runAudit_sink_independent cfg env req b1
    have h2 := runAudit_sink_independent cfg env req b2
    exact ⟨h1.1.trans h2.1.symm, h1.2.1.trans h2.2.1.symm, h1.2.2.trans h2.2.2.symm⟩
  · intro cfg env body sN eN b1 b2
    have h1 := (runAudit_sink_independent cfg env (requestOf body) b1).1
    have h2 := (runAudit_sink_independent cfg env (requestOf body) b2).1
    simp [backgroundAudit, runAuditSettled, h1, h2]

/-- C9 counterexample: the server keys the registry under an id minted from
its own clock (1000) while `runAudit` mints a second id from its own later
clock reading (1001); the stored result and the persisted report directory
carry the latter, so the registry key and the result id disagree — and two
registry records minted in the same millisecond share one id. -/
theorem audit_id_mismatch :
    (backgroundAudit cfgBase envOk 1000 1005 bodyBase).id = "audit-1000" ∧
    ((backgroundAudit cfgBase envOk 1000 1005 bodyBase).result.map
      AuditResult.auditId) = some "audit-1001" ∧
    ("audit-1000" : String) ≠ "audit-1001" ∧
    ((runAudit cfgBase envOk (requestOf bodyBase)).report.map AuditReport.dir) =
      some "memory/audit-1001" ∧
    (startAuditRecord 5 bodyBase).id =
      (startAuditRecord 5 ⟨"https://github.com/other/repo", none, none, none⟩).id := by
  refine ⟨rfl, ?_, by decide, ?_, rfl⟩ <;>
    simp [backgroundAudit, runAuditSettled, runAudit, envOk, runStaticAnalysis] <;>
    decide

/-- C9 amended: each layer derives its own creation-time id. The registry key
carries the server's id, while the `AuditResult` and the persisted report
directory both carry the id `runAudit` mints from its own clock; the two
coincide exactly when both clocks read the same millisecond, and ids from
equal clock readings always collide. -/
theorem audit_id_per_layer (cfg : Config) (env : AuditEnv) (body : StartBody)
    (sN eN : Nat) (sl so pa : List Finding)
    (hc : env.cloneResult.success = true)
    (hv : env.validation.isValid = true)
    (hs : env.staticOutcome = .ok sl so pa) :
    (backgroundAudit cfg env sN eN body).id = "audit-" ++ toString sN ∧
    (runAudit cfg env (requestOf body)).result.auditId =
      "audit-" ++ toString env.now ∧
    ((runAudit cfg env (requestOf body)).report.map AuditReport.auditId) =
      some ("audit-" ++ toString env.now) ∧
    ((runAudit cfg env (requestOf body)).report.map AuditReport.dir) =
      some ("memory/" ++ ("audit-" ++ toString env.now)) ∧
    (backgroundAudit cfg env sN eN body).result =
      some (runAudit cfg env (requestOf body)).result ∧
    (sN = env.now → (backgroundAudit cfg env sN eN body).id =
      (runAudit cfg env (requestOf body)).result.auditId) ∧
    (∀ (n : Nat) (b1 b2 : StartBody),
      (startAuditRecord n b1).id = (startAuditRecord n b2).id) := by
  refine ⟨by simp [backgroundAudit, runAuditSettled, startAuditRecord], ?_, ?_, ?_,
    by simp [backgroundAudit, runAuditSettled], ?_, fun n b1 b2 => rfl⟩
  · simp [runAudit, hc, hv, hs, runStaticAnalysis]
  · simp [runAudit, hc, hv, hs, runStaticAnalysis]
  · simp [runAudit, hc, hv, hs, runStaticAnalysis]
  · intro h
    simp [backgroundAudit, runAuditSettled, startAuditRecord, runAudit,
      hc, hv, hs, runStaticAnalysis, h]

/-- Witness for C9 with both clocks reading 1001: the registry key, the result
id and the report directory all carry "audit-1001". -/
theorem audit_id_per_layer_witness :
    (backgroundAudit cfgBase envOk 1001 1005 bodyBase).id =
      (runAudit cfgBase envOk (requestOf bodyBase)).result.auditId ∧
    ((runAudit cfgBase envOk (requestOf bodyBase)).report.map AuditReport.dir) =
      some ("memory/" ++ ("audit-" ++ toString envOk.now)) :=
  have h := audit_id_per_layer cfgBase envOk bodyBase 1001 1005 _ _ _ rfl rfl rfl
  ⟨h.2.2.2.2.2.1 rfl, h.2.2.2.1⟩

end SmartAudit
